import Mathlib

/-!
Shallow embedding of `pkg/k8s/apis/cilium.io/v2/client/register.go`:
the CRD reconciler (`needsUpdate`, `createUpdateCRD`, the per-kind
builders and `CreateCustomResourceDefinitions`).

The cluster API client (Get/Create/Update/Delete) is an external
collaborator; it is modelled as a scripted oracle threaded through the
functions, together with an observation log of the API calls issued and
of the per-kind reconciler invocations.  Machine-level details (contexts,
logging) are dropped; control flow, error propagation and the data the
code inspects are translated statement by statement from the source.
-/

/-! ## Constants (register.go, const block) -/

/-- Value of `k8sconst.GroupName` (pkg/k8s/apis/cilium.io); the exact
string is immaterial to every claim. -/
def CustomResourceDefinitionGroup : String := "cilium.io"

/-- CustomResourceDefinitionVersion is the current version of the resource. -/
def CustomResourceDefinitionVersion : String := "v2"

/-- CustomResourceDefinitionSchemaVersion is the semver-conformant version of
the CRD schema, used to determine if the CRD needs to be updated in cluster. -/
def CustomResourceDefinitionSchemaVersion : String := "1.18"

/-- CustomResourceDefinitionSchemaVersionKey is the key to the label which
holds the CRD schema version. -/
def CustomResourceDefinitionSchemaVersionKey : String :=
  "io.cilium.k8s.crd.schema.version"

/-- Value of `option.IdentityAllocationModeCRD` (pkg/option, external to
src/); only compared for equality, the exact string is immaterial. -/
def IdentityAllocationModeCRD : String := "crd"

/-! ## Semantic versions -/

/-- Modelled from the spec: a SchemaVersion is a semantic version with a
total ordering via standard semantic-version comparison (the parser
`versioncheck.Version` of pkg/versioncheck is not under src/). -/
structure SemVer where
  major : Nat
  minor : Nat
  patch : Nat
deriving DecidableEq, Repr

/-- Lexicographic (standard semantic-version) strict order. -/
def SemVer.lt (a b : SemVer) : Bool :=
  decide (a.major < b.major ∨
    (a.major = b.major ∧ (a.minor < b.minor ∨
      (a.minor = b.minor ∧ a.patch < b.patch))))

/-- Splits a character list on the dot separator, keeping empty groups. -/
def splitDots : List Char → List (List Char)
  | [] => [[]]
  | c :: cs =>
    if c = '.' then [] :: splitDots cs
    else
      match splitDots cs with
      | [] => [[c]]
      | g :: gs => (c :: g) :: gs

/-- Reads a non-empty all-digit character group as a decimal number. -/
def decimalValue (acc : Nat) : List Char → Option Nat
  | [] => some acc
  | c :: cs =>
    if c.isDigit then decimalValue (acc * 10 + (c.toNat - 48)) cs else none

/-- A version component: non-empty, all digits. -/
def componentToNat : List Char → Option Nat
  | [] => none
  | c :: cs => decimalValue 0 (c :: cs)

/-- Modelled from the spec: `versioncheck.Version` (pkg/versioncheck, not
under src/) parses a semantic-version string, tolerating omitted minor and
patch components; any malformed string is a parse failure. -/
def parseVersion (s : String) : Option SemVer :=
  match (splitDots s.toList).mapM componentToNat with
  | some [a] => some ⟨a, 0, 0⟩
  | some [a, b] => some ⟨a, b, 0⟩
  | some [a, b, c] => some ⟨a, b, c⟩
  | _ => none

/-- comparableCRDSchemaVersion =
`versioncheck.MustVersion(CustomResourceDefinitionSchemaVersion)`. -/
def comparableCRDSchemaVersion : SemVer := ⟨1, 18, 0⟩

/-! ## Data model of a CustomResourceDefinition object -/

/-- CustomResourceDefinitionNames (apiextensions v1beta1). -/
structure CRDNames where
  plural : String
  singular : String
  shortNames : List String
  kind : String
deriving DecidableEq, Repr

/-- CustomResourceDefinitionSpec; the validation schema, subresource
configuration and printer columns are opaque blobs out of scope of the
reconciler, so only their presence is modelled. -/
structure CRDSpec where
  group : String
  version : String
  names : CRDNames
  additionalPrinterColumns : Option Unit
  subresources : Option Unit
  scope : String
  validation : Option Unit
deriving DecidableEq, Repr

/-- A status condition: a (type, status, reason) triple, all string-typed
as in apiextensions v1beta1. -/
structure CRDCondition where
  condType : String
  status : String
  reason : String
deriving DecidableEq, Repr

/-- Condition type `apiextensionsv1beta1.Established`. -/
def Established : String := "Established"

/-- Condition type `apiextensionsv1beta1.NamesAccepted`. -/
def NamesAccepted : String := "NamesAccepted"

/-- Condition status `apiextensionsv1beta1.ConditionTrue`. -/
def ConditionTrue : String := "True"

/-- Condition status `apiextensionsv1beta1.ConditionFalse`. -/
def ConditionFalse : String := "False"

/-- A CustomResourceDefinition object: ObjectMeta (name, labels), Spec and
Status.Conditions.  Used both for descriptors built by this package
(conditions empty) and for live cluster objects. -/
structure CRD where
  name : String
  labels : List (String × String)
  spec : CRDSpec
  conditions : List CRDCondition
deriving DecidableEq, Repr

/-- Go map read with presence flag: `v, ok := labels[k]`. -/
def getLabel (labels : List (String × String)) (k : String) : Option String :=
  (labels.find? (fun p => p.1 == k)).map (fun p => p.2)

/-- Go map read with zero value: `labels[k]` is "" when the key is absent. -/
def getLabelD (labels : List (String × String)) (k : String) : String :=
  (getLabel labels k).getD ""

/-! ## needsUpdate (register.go:426) -/

/-- Direct translation of `needsUpdate`: true when the live object has no
validation, no schema-version label, an unparsable label version, or a
label version smaller than the current compiled-in version. -/
def needsUpdate (clusterCRD : CRD) : Bool :=
  match clusterCRD.spec.validation with
  | none =>
    -- no validation detected
    true
  | some _ =>
    match getLabel clusterCRD.labels CustomResourceDefinitionSchemaVersionKey with
    | none =>
      -- no schema version detected
      true
    | some v =>
      match parseVersion v with
      | none =>
        -- version in cluster is unparsable
        true
      | some clusterVersion =>
        -- smaller than current version forces the update
        SemVer.lt clusterVersion comparableCRDSchemaVersion

example : parseVersion "1.18" = some ⟨1, 18, 0⟩ := by decide
example : parseVersion "1.17" = some ⟨1, 17, 0⟩ := by decide
example : parseVersion "bogus" = none := by decide
example : SemVer.lt ⟨1, 17, 0⟩ ⟨1, 18, 0⟩ = true := by decide

/-! ## Errors and the scripted cluster API client -/

/-- Error classes the reconciler distinguishes, mirroring the
`k8s.io/apimachinery` error predicates it consults; `waitTimeout` is the
error returned by an expired `wait.Poll`, `other` carries free text. -/
inductive K8sError where
  | notFound
  | alreadyExists
  | conflict
  | waitTimeout
  | other (msg : String)
deriving DecidableEq, Repr

/-- Predicate `errors.IsNotFound`. -/
def isNotFound : K8sError → Bool
  | K8sError.notFound => true
  | _ => false

/-- Predicate `errors.IsAlreadyExists`. -/
def isAlreadyExists : K8sError → Bool
  | K8sError.alreadyExists => true
  | _ => false

/-- Rendering of an error as text, as `fmt.Errorf` with `%s` would. -/
def errorText : K8sError → String
  | K8sError.notFound => "not found"
  | K8sError.alreadyExists => "already exists"
  | K8sError.conflict => "conflict"
  | K8sError.waitTimeout => "timed out waiting for the condition"
  | K8sError.other m => m

/-- One observable cluster API call, with the object name it addressed. -/
inductive APICall where
  | get (name : String)
  | create (name : String)
  | update (name : String)
  | delete (name : String)
deriving DecidableEq, Repr

/-- The cluster API client as a scripted oracle: each operation consumes
the head of its response list.  Get and Create answer with the live
object or an error; the result object of Update is discarded by the
source (only its error is read), and Delete only reports an error. -/
structure ClientScript where
  gets : List (Except K8sError CRD)
  creates : List (Except K8sError CRD)
  updates : List (Option K8sError)
  deletes : List (Option K8sError)
deriving Repr

/-- The threaded world state: the remaining script plus two observation
logs added by the embedding — the API calls issued, in order, and the
per-kind reconciler invocations (`crdName` arguments), in order. -/
structure St where
  script : ClientScript
  calls : List APICall
  kinds : List String
deriving Repr

/-- Fallback answer for an exhausted script. -/
def unscripted : Except K8sError CRD := Except.error (K8sError.other "unscripted")

/-- CustomResourceDefinitions().Get(name). -/
def doGet (name : String) (s : St) : Except K8sError CRD × St :=
  match s.script.gets with
  | [] => (unscripted, { s with calls := s.calls ++ [APICall.get name] })
  | r :: rest =>
    (r, { s with script := { s.script with gets := rest },
                 calls := s.calls ++ [APICall.get name] })

/-- CustomResourceDefinitions().Create(crd). -/
def doCreate (name : String) (s : St) : Except K8sError CRD × St :=
  match s.script.creates with
  | [] => (unscripted, { s with calls := s.calls ++ [APICall.create name] })
  | r :: rest =>
    (r, { s with script := { s.script with creates := rest },
                 calls := s.calls ++ [APICall.create name] })

/-- CustomResourceDefinitions().Update(obj); the source discards the
returned object, so only an optional error is scripted. -/
def doUpdate (name : String) (s : St) : Option K8sError × St :=
  match s.script.updates with
  | [] => (none, { s with calls := s.calls ++ [APICall.update name] })
  | r :: rest =>
    (r, { s with script := { s.script with updates := rest },
                 calls := s.calls ++ [APICall.update name] })

/-- CustomResourceDefinitions().Delete(name). -/
def doDelete (name : String) (s : St) : Option K8sError × St :=
  match s.script.deletes with
  | [] => (none, { s with calls := s.calls ++ [APICall.delete name] })
  | r :: rest =>
    (r, { s with script := { s.script with deletes := rest },
                 calls := s.calls ++ [APICall.delete name] })

/-! ## wait.Poll -/

/-- Modelled from the spec: the bounded polling primitive
`wait.Poll(500ms, 60s, cond)` of `k8s.io/apimachinery` (dependency not
under src/).  Each fuel unit is one 500 ms tick of the 60 s deadline.
Per its contract a condition error stops polling at once and is returned
(the fetch-error propagation of the establishment phase relies on this),
done=true stops with success, and an exhausted deadline yields the
timeout error. -/
def poll {σ : Type} (cond : σ → (Bool × Option K8sError) × σ) :
    Nat → σ → Option K8sError × σ
  | 0, s => (some K8sError.waitTimeout, s)
  | fuel + 1, s =>
    match cond s with
    | ((_, some e), s1) => (some e, s1)
    | ((true, none), s1) => (none, s1)
    | ((false, none), s1) => poll cond fuel s1

/-- Number of 500 ms ticks in the 60 s deadline. -/
def pollAttempts : Nat := 120

/-! ## createUpdateCRD (register.go:311) -/

/-- One iteration of the update-retry loop (register.go:347-378): re-Get
the live object; a fetch error aborts; when `needsUpdate` still holds,
overwrite labels and spec with the descriptor values and submit Update,
finishing on success and aborting on failure; otherwise finish. -/
def updateLoopCond (crd : CRD) : CRD × St → (Bool × Option K8sError) × (CRD × St) :=
  fun st =>
    match doGet crd.name st.2 with
    | (Except.error e, s1) => ((false, some e), (st.1, s1))
    | (Except.ok clusterCRD, s1) =>
      if needsUpdate clusterCRD then
        match doUpdate crd.name s1 with
        | (none, s2) =>
          ((true, none), ({ clusterCRD with labels := crd.labels, spec := crd.spec }, s2))
        | (some e, s2) =>
          ((false, some e), ({ clusterCRD with labels := crd.labels, spec := crd.spec }, s2))
      else
        ((true, none), (clusterCRD, s1))

/-- Outcome of one scan of the live status conditions
(register.go:388-400, the for/switch). -/
inductive ScanResult where
  | established
  | namesRejected (reason : String)
  | noMatch
deriving DecidableEq, Repr

/-- Scans the condition list in order: the first Established condition
with status True reports success; the first NamesAccepted condition with
status False reports the name conflict; other entries are skipped. -/
def scanConditions : List CRDCondition → ScanResult
  | [] => ScanResult.noMatch
  | c :: rest =>
    if c.condType = Established then
      if c.status = ConditionTrue then ScanResult.established
      else scanConditions rest
    else if c.condType = NamesAccepted then
      if c.status = ConditionFalse then ScanResult.namesRejected c.reason
      else scanConditions rest
    else scanConditions rest

/-- One iteration of the establishment-wait loop (register.go:387-409).
The ambient `err` variable of the source is provably nil whenever the
conditions are scanned (every earlier failing Get already aborted the
poll), so the `return true, err` and `return false, err` of the scan
branches carry no error here.  The NamesAccepted=false branch logs and
returns without re-fetching; only a scan without a decisive entry
re-fetches the live object. -/
def waitLoopCond (crd : CRD) : CRD × St → (Bool × Option K8sError) × (CRD × St) :=
  fun st =>
    match scanConditions st.1.conditions with
    | ScanResult.established => ((true, none), st)
    | ScanResult.namesRejected _ => ((false, none), st)
    | ScanResult.noMatch =>
      match doGet crd.name st.2 with
      | (Except.error e, s1) => ((false, some e), (st.1, s1))
      | (Except.ok c, s1) => ((false, none), (c, s1))

/-- The update-decision phase (register.go:338-383): only when the new
descriptor carries a validation schema, the live object carries a
non-empty schema-version label and `needsUpdate` holds is the bounded
update-retry loop run; otherwise nothing happens. -/
def updatePhase (crd : CRD) (clusterCRD : CRD) (s : St) :
    Option K8sError × (CRD × St) :=
  if crd.spec.validation.isSome
      && (getLabelD clusterCRD.labels CustomResourceDefinitionSchemaVersionKey != "")
      && needsUpdate clusterCRD then
    poll (updateLoopCond crd) pollAttempts (clusterCRD, s)
  else
    (none, (clusterCRD, s))

/-- The failure message built at register.go:416 when the compensating
Delete itself fails: both the delete error and the wait error are
rendered into one text. -/
def deleteFailMsg (crdName : String) (deleteErr waitErr : K8sError) : String :=
  "unable to delete k8s " ++ crdName ++ " CRD " ++ errorText deleteErr ++
    ". Deleting CRD due: " ++ errorText waitErr

/-- The establishment-wait phase (register.go:385-420): poll the status
conditions until Established; on any wait error (timeout or fetch
failure) issue a compensating Delete for the object name and propagate
the wait error, folding in the delete error text when the Delete also
fails. -/
def establishPhase (crdName : String) (crd : CRD) (clusterCRD : CRD) (s : St) :
    Option K8sError × St :=
  match poll (waitLoopCond crd) pollAttempts (clusterCRD, s) with
  | (none, (_, s2)) => (none, s2)
  | (some waitErr, (_, s2)) =>
    match doDelete crd.name s2 with
    | (some deleteErr, s3) =>
      (some (K8sError.other (deleteFailMsg crdName deleteErr waitErr)), s3)
    | (none, s3) => (some waitErr, s3)

/-- The part of createUpdateCRD after a live object is in hand
(register.go:338-423): update decision and retry, then establishment
wait; an update failure returns at once. -/
def afterFetch (crdName : String) (crd : CRD) (clusterCRD : CRD) (s : St) :
    Option K8sError × St :=
  match updatePhase crd clusterCRD s with
  | (some e, (_, s1)) => (some e, s1)
  | (none, (cc, s1)) => establishPhase crdName crd cc s1

/-- createUpdateCRD ensures the CRD object is installed into the k8s
cluster, creating or updating it and its validation when needed.  Entry
is recorded in the per-kind invocation log.  Get not-found leads to
Create, whose already-exists outcome is a success-return; any other
Get/Create error propagates; a fetched or created object proceeds to the
update and establishment phases. -/
def createUpdateCRD (crdName : String) (crd : CRD) (s0 : St) :
    Option K8sError × St :=
  match doGet crd.name { s0 with kinds := s0.kinds ++ [crdName] } with
  | (Except.error e, s1) =>
    if isNotFound e then
      match doCreate crd.name s1 with
      | (Except.error e2, s2) =>
        -- multiple agents race to create the CRD: another created it and
        -- will also update it, hence the non-error return
        if isAlreadyExists e2 then (none, s2) else (some e2, s2)
      | (Except.ok clusterCRD, s2) => afterFetch crdName crd clusterCRD s2
    else (some e, s1)
  | (Except.ok clusterCRD, s1) => afterFetch crdName crd clusterCRD s1

/-! ## Per-kind builders (register.go:117-307)

Each builder decodes an embedded YAML document (an external byte blob;
its decode, which panics only on a build-time invariant violation, is out
of scope) and constructs the canonical descriptor from the decoded
document `ciliumCRD`.  The decoded document is taken here as input. -/

/-- Descriptor built by createCNPCRD (register.go:128-149). -/
def cnpRes (ciliumCRD : CRD) : CRD :=
  { name := ciliumCRD.spec.names.plural ++ "." ++ CustomResourceDefinitionGroup,
    labels := [(CustomResourceDefinitionSchemaVersionKey,
                CustomResourceDefinitionSchemaVersion)],
    spec := { group := CustomResourceDefinitionGroup,
              version := CustomResourceDefinitionVersion,
              names := { plural := ciliumCRD.spec.names.plural,
                         singular := ciliumCRD.spec.names.singular,
                         shortNames := ciliumCRD.spec.names.shortNames,
                         kind := ciliumCRD.spec.names.kind },
              additionalPrinterColumns := ciliumCRD.spec.additionalPrinterColumns,
              subresources := ciliumCRD.spec.subresources,
              scope := ciliumCRD.spec.scope,
              validation := ciliumCRD.spec.validation },
    conditions := [] }

/-- createCNPCRD creates and updates the CiliumNetworkPolicies CRD. -/
def createCNPCRD (ciliumCRD : CRD) (s : St) : Option K8sError × St :=
  createUpdateCRD "CiliumNetworkPolicy/v2" (cnpRes ciliumCRD) s

/-- Descriptor built by createCCNPCRD (register.go:167-187); no
additional printer columns are copied. -/
def ccnpRes (ciliumCRD : CRD) : CRD :=
  { name := ciliumCRD.spec.names.plural ++ "." ++ CustomResourceDefinitionGroup,
    labels := [(CustomResourceDefinitionSchemaVersionKey,
                CustomResourceDefinitionSchemaVersion)],
    spec := { group := CustomResourceDefinitionGroup,
              version := CustomResourceDefinitionVersion,
              names := { plural := ciliumCRD.spec.names.plural,
                         singular := ciliumCRD.spec.names.singular,
                         shortNames := ciliumCRD.spec.names.shortNames,
                         kind := ciliumCRD.spec.names.kind },
              additionalPrinterColumns := none,
              subresources := ciliumCRD.spec.subresources,
              scope := ciliumCRD.spec.scope,
              validation := ciliumCRD.spec.validation },
    conditions := [] }

/-- createCCNPCRD creates and updates the CiliumClusterwideNetworkPolicies
CRD. -/
def createCCNPCRD (ciliumCRD : CRD) (s : St) : Option K8sError × St :=
  createUpdateCRD "CiliumClusterwideNetworkPolicy/v2" (ccnpRes ciliumCRD) s

/-- Descriptor built by createCEPCRD (register.go:205-227). -/
def cepRes (ciliumCRD : CRD) : CRD :=
  { name := ciliumCRD.spec.names.plural ++ "." ++ CustomResourceDefinitionGroup,
    labels := [(CustomResourceDefinitionSchemaVersionKey,
                CustomResourceDefinitionSchemaVersion)],
    spec := { group := CustomResourceDefinitionGroup,
              version := CustomResourceDefinitionVersion,
              names := { plural := ciliumCRD.spec.names.plural,
                         singular := ciliumCRD.spec.names.singular,
                         shortNames := ciliumCRD.spec.names.shortNames,
                         kind := ciliumCRD.spec.names.kind },
              additionalPrinterColumns := ciliumCRD.spec.additionalPrinterColumns,
              subresources := ciliumCRD.spec.subresources,
              scope := ciliumCRD.spec.scope,
              validation := ciliumCRD.spec.validation },
    conditions := [] }

/-- createCEPCRD creates and updates the CiliumEndpoint CRD. -/
def createCEPCRD (ciliumCRD : CRD) (s : St) : Option K8sError × St :=
  createUpdateCRD "v2.CiliumEndpoint" (cepRes ciliumCRD) s

/-- Descriptor built by createNodeCRD (register.go:245-266); no
additional printer columns are copied. -/
def nodeRes (ciliumCRD : CRD) : CRD :=
  { name := ciliumCRD.spec.names.plural ++ "." ++ CustomResourceDefinitionGroup,
    labels := [(CustomResourceDefinitionSchemaVersionKey,
                CustomResourceDefinitionSchemaVersion)],
    spec := { group := CustomResourceDefinitionGroup,
              version := CustomResourceDefinitionVersion,
              names := { plural := ciliumCRD.spec.names.plural,
                         singular := ciliumCRD.spec.names.singular,
                         shortNames := ciliumCRD.spec.names.shortNames,
                         kind := ciliumCRD.spec.names.kind },
              additionalPrinterColumns := none,
              subresources := ciliumCRD.spec.subresources,
              scope := ciliumCRD.spec.scope,
              validation := ciliumCRD.spec.validation },
    conditions := [] }

/-- createNodeCRD creates and updates the CiliumNode CRD. -/
def createNodeCRD (ciliumCRD : CRD) (s : St) : Option K8sError × St :=
  createUpdateCRD "v2.CiliumNode" (nodeRes ciliumCRD) s

/-- Descriptor built by createIdentityCRD (register.go:284-304): its spec
carries neither printer columns nor — decisively — a validation schema. -/
def identityRes (ciliumCRD : CRD) : CRD :=
  { name := ciliumCRD.spec.names.plural ++ "." ++ CustomResourceDefinitionGroup,
    labels := [(CustomResourceDefinitionSchemaVersionKey,
                CustomResourceDefinitionSchemaVersion)],
    spec := { group := CustomResourceDefinitionGroup,
              version := CustomResourceDefinitionVersion,
              names := { plural := ciliumCRD.spec.names.plural,
                         singular := ciliumCRD.spec.names.singular,
                         shortNames := ciliumCRD.spec.names.shortNames,
                         kind := ciliumCRD.spec.names.kind },
              additionalPrinterColumns := none,
              subresources := ciliumCRD.spec.subresources,
              scope := ciliumCRD.spec.scope,
              validation := none },
    conditions := [] }

/-- createIdentityCRD creates and updates the CiliumIdentity CRD. -/
def createIdentityCRD (ciliumCRD : CRD) (s : St) : Option K8sError × St :=
  createUpdateCRD "v2.CiliumIdentity" (identityRes ciliumCRD) s

/-! ## Orchestrator (register.go:89-113) -/

/-- The five decoded embedded schema documents, one per kind. -/
structure EmbeddedCRDs where
  cnp : CRD
  ccnp : CRD
  cep : CRD
  node : CRD
  identity : CRD

/-- CreateCustomResourceDefinitions creates the CRD objects in the
kubernetes cluster: one kind after another, each short-circuiting on a
non-nil error, the identity kind gated on the identity-allocation mode
configuration flag. -/
def CreateCustomResourceDefinitions (identityAllocationMode : String)
    (docs : EmbeddedCRDs) (s : St) : Option K8sError × St :=
  match createCNPCRD docs.cnp s with
  | (some e, s1) => (some e, s1)
  | (none, s1) =>
  match createCCNPCRD docs.ccnp s1 with
  | (some e, s2) => (some e, s2)
  | (none, s2) =>
  match createCEPCRD docs.cep s2 with
  | (some e, s3) => (some e, s3)
  | (none, s3) =>
  match createNodeCRD docs.node s3 with
  | (some e, s4) => (some e, s4)
  | (none, s4) =>
    if identityAllocationMode = IdentityAllocationModeCRD then
      match createIdentityCRD docs.identity s4 with
      | (some e, s5) => (some e, s5)
      | (none, s5) => (none, s5)
    else (none, s4)

/-- Sequential runner: applies the reconciler passes in list order,
stopping at the first non-nil error. -/
def runSeq : List (St → Option K8sError × St) → St → Option K8sError × St
  | [], s => (none, s)
  | f :: fs, s =>
    match f s with
    | (some e, s1) => (some e, s1)
    | (none, s1) => runSeq fs s1

/-- The per-kind passes in the fixed orchestration order, the identity
kind included exactly when the mode flag selects CRD identity
allocation. -/
def orderedRunners (identityAllocationMode : String) (docs : EmbeddedCRDs) :
    List (St → Option K8sError × St) :=
  [createCNPCRD docs.cnp, createCCNPCRD docs.ccnp,
   createCEPCRD docs.cep, createNodeCRD docs.node] ++
  (if identityAllocationMode = IdentityAllocationModeCRD then
    [createIdentityCRD docs.identity] else [])

/-- The `crdName` tags of the passes, in orchestration order. -/
def orderedNames (identityAllocationMode : String) : List String :=
  ["CiliumNetworkPolicy/v2", "CiliumClusterwideNetworkPolicy/v2",
   "v2.CiliumEndpoint", "v2.CiliumNode"] ++
  (if identityAllocationMode = IdentityAllocationModeCRD then
    ["v2.CiliumIdentity"] else [])

/-! ## Helper lemmas about poll and the observation logs -/

theorem poll_zero {σ : Type} (cond : σ → (Bool × Option K8sError) × σ) (s : σ) :
    poll cond 0 s = (some K8sError.waitTimeout, s) := rfl

theorem poll_of_err {σ : Type} {cond : σ → (Bool × Option K8sError) × σ}
    {s s1 : σ} {d : Bool} {e : K8sError} (h : cond s = ((d, some e), s1))
    {fuel : Nat} (hf : 0 < fuel) : poll cond fuel s = (some e, s1) := by
  cases fuel with
  | zero => exact absurd hf (by simp)
  | succ n => simp [poll, h]

theorem poll_of_done {σ : Type} {cond : σ → (Bool × Option K8sError) × σ}
    {s s1 : σ} (h : cond s = ((true, none), s1))
    {fuel : Nat} (hf : 0 < fuel) : poll cond fuel s = (none, s1) := by
  cases fuel with
  | zero => exact absurd hf (by simp)
  | succ n => simp [poll, h]

theorem poll_of_cont {σ : Type} {cond : σ → (Bool × Option K8sError) × σ}
    {s s1 : σ} (h : cond s = ((false, none), s1)) (fuel : Nat) :
    poll cond (fuel + 1) s = poll cond fuel s1 := by
  simp [poll, h]

theorem poll_preserve {σ α : Type} (cond : σ → (Bool × Option K8sError) × σ)
    (g : σ → α) (h : ∀ s, g ((cond s).2) = g s) :
    ∀ (fuel : Nat) (s : σ), g ((poll cond fuel s).2) = g s := by
  intro fuel
  induction fuel with
  | zero => intro s; rfl
  | succ n ih =>
    intro s
    rcases hc : cond s with ⟨⟨d, e⟩, s1⟩
    have hg : g s1 = g s := by
      have h0 := h s
      rw [hc] at h0
      exact h0
    cases e with
    | some err => rw [poll_of_err hc (Nat.succ_pos n)]; exact hg
    | none =>
      cases d with
      | true => rw [poll_of_done hc (Nat.succ_pos n)]; exact hg
      | false => rw [poll_of_cont hc n, ih s1]; exact hg

theorem doGet_kinds (name : String) (s : St) : (doGet name s).2.kinds = s.kinds := by
  unfold doGet
  cases s.script.gets <;> rfl

theorem doCreate_kinds (name : String) (s : St) :
    (doCreate name s).2.kinds = s.kinds := by
  unfold doCreate
  cases s.script.creates <;> rfl

theorem doUpdate_kinds (name : String) (s : St) :
    (doUpdate name s).2.kinds = s.kinds := by
  unfold doUpdate
  cases s.script.updates <;> rfl

theorem doDelete_kinds (name : String) (s : St) :
    (doDelete name s).2.kinds = s.kinds := by
  unfold doDelete
  cases s.script.deletes <;> rfl

theorem updateLoopCond_kinds (crd : CRD) (st : CRD × St) :
    ((updateLoopCond crd st).2).2.kinds = st.2.kinds := by
  rcases st with ⟨cc, s⟩
  unfold updateLoopCond
  rcases hg : doGet crd.name s with ⟨r, s1⟩
  have h1 : s1.kinds = s.kinds := by
    have h0 := doGet_kinds crd.name s
    rw [hg] at h0
    exact h0
  cases r with
  | error e => exact h1
  | ok c =>
    dsimp only
    cases h : needsUpdate c with
    | false =>
      rw [if_neg (by simp [h])]
      exact h1
    | true =>
      rw [if_pos rfl]
      rcases hu : doUpdate crd.name s1 with ⟨u, s2⟩
      have h2 : s2.kinds = s1.kinds := by
        have h0 := doUpdate_kinds crd.name s1
        rw [hu] at h0
        exact h0
      cases u with
      | none =>
        show s2.kinds = s.kinds
        rw [h2, h1]
      | some e =>
        show s2.kinds = s.kinds
        rw [h2, h1]

theorem waitLoopCond_kinds (crd : CRD) (st : CRD × St) :
    ((waitLoopCond crd st).2).2.kinds = st.2.kinds := by
  rcases st with ⟨cc, s⟩
  unfold waitLoopCond
  cases scanConditions cc.conditions with
  | established => rfl
  | namesRejected r => rfl
  | noMatch =>
    rcases hg : doGet crd.name s with ⟨r, s1⟩
    have h1 : s1.kinds = s.kinds := by
      have h0 := doGet_kinds crd.name s
      rw [hg] at h0
      exact h0
    cases r <;> exact h1

theorem updatePhase_kinds (crd cc : CRD) (s : St) :
    ((updatePhase crd cc s).2).2.kinds = s.kinds := by
  unfold updatePhase
  split
  · exact poll_preserve (updateLoopCond crd) (fun p => p.2.kinds)
      (updateLoopCond_kinds crd) pollAttempts (cc, s)
  · rfl

theorem establishPhase_kinds (n : String) (crd cc : CRD) (s : St) :
    (establishPhase n crd cc s).2.kinds = s.kinds := by
  unfold establishPhase
  have hp : ((poll (waitLoopCond crd) pollAttempts (cc, s)).2).2.kinds = s.kinds :=
    poll_preserve (waitLoopCond crd) (fun p => p.2.kinds)
      (waitLoopCond_kinds crd) pollAttempts (cc, s)
  rcases hr : poll (waitLoopCond crd) pollAttempts (cc, s) with ⟨e, cc2, s2⟩
  rw [hr] at hp
  cases e with
  | none => exact hp
  | some werr =>
    dsimp only
    rcases hd : doDelete crd.name s2 with ⟨d, s3⟩
    have h3 : s3.kinds = s2.kinds := by
      have h0 := doDelete_kinds crd.name s2
      rw [hd] at h0
      exact h0
    cases d with
    | none =>
      show s3.kinds = s.kinds
      rw [h3]
      exact hp
    | some derr =>
      show s3.kinds = s.kinds
      rw [h3]
      exact hp

theorem afterFetch_kinds (n : String) (crd cc : CRD) (s : St) :
    (afterFetch n crd cc s).2.kinds = s.kinds := by
  unfold afterFetch
  have hp := updatePhase_kinds crd cc s
  rcases hr : updatePhase crd cc s with ⟨e, cc1, s1⟩
  rw [hr] at hp
  cases e with
  | some e0 => exact hp
  | none => rw [establishPhase_kinds n crd cc1 s1]; exact hp

theorem createUpdateCRD_kinds (n : String) (crd : CRD) (s : St) :
    (createUpdateCRD n crd s).2.kinds = s.kinds ++ [n] := by
  unfold createUpdateCRD
  rcases hg : doGet crd.name { s with kinds := s.kinds ++ [n] } with ⟨r, s1⟩
  have h1 : s1.kinds = s.kinds ++ [n] := by
    have h0 := doGet_kinds crd.name { s with kinds := s.kinds ++ [n] }
    rw [hg] at h0
    exact h0
  cases r with
  | ok c =>
    dsimp only
    rw [afterFetch_kinds, h1]
  | error e =>
    dsimp only
    cases he : isNotFound e with
    | false =>
      rw [if_neg (by simp [he])]
      exact h1
    | true =>
      rw [if_pos rfl]
      rcases hc : doCreate crd.name s1 with ⟨r2, s2⟩
      have h2 : s2.kinds = s1.kinds := by
        have h0 := doCreate_kinds crd.name s1
        rw [hc] at h0
        exact h0
      cases r2 with
      | ok c2 =>
        dsimp only
        rw [afterFetch_kinds, h2, h1]
      | error e2 =>
        dsimp only
        cases ha : isAlreadyExists e2 with
        | true =>
          rw [if_pos rfl]
          show s2.kinds = s.kinds ++ [n]
          rw [h2, h1]
        | false =>
          rw [if_neg (by simp [ha])]
          show s2.kinds = s.kinds ++ [n]
          rw [h2, h1]

/-! ## Counting Update calls in the log -/

/-- Whether an API call is an Update. -/
def isUpdateCall : APICall → Bool
  | APICall.update _ => true
  | _ => false

/-- Number of Update calls in a call log. -/
def countUpdates (l : List APICall) : Nat := (l.filter isUpdateCall).length

theorem countUpdates_append (l1 l2 : List APICall) :
    countUpdates (l1 ++ l2) = countUpdates l1 + countUpdates l2 := by
  simp [countUpdates]

theorem doGet_calls (name : String) (s : St) :
    (doGet name s).2.calls = s.calls ++ [APICall.get name] := by
  unfold doGet
  cases s.script.gets <;> rfl

theorem doCreate_calls (name : String) (s : St) :
    (doCreate name s).2.calls = s.calls ++ [APICall.create name] := by
  unfold doCreate
  cases s.script.creates <;> rfl

theorem doUpdate_calls (name : String) (s : St) :
    (doUpdate name s).2.calls = s.calls ++ [APICall.update name] := by
  unfold doUpdate
  cases s.script.updates <;> rfl

theorem doDelete_calls (name : String) (s : St) :
    (doDelete name s).2.calls = s.calls ++ [APICall.delete name] := by
  unfold doDelete
  cases s.script.deletes <;> rfl

theorem countUpdates_doGet (name : String) (s : St) :
    countUpdates (doGet name s).2.calls = countUpdates s.calls := by
  rw [doGet_calls, countUpdates_append]
  simp [countUpdates, isUpdateCall]

theorem countUpdates_doCreate (name : String) (s : St) :
    countUpdates (doCreate name s).2.calls = countUpdates s.calls := by
  rw [doCreate_calls, countUpdates_append]
  simp [countUpdates, isUpdateCall]

theorem countUpdates_doDelete (name : String) (s : St) :
    countUpdates (doDelete name s).2.calls = countUpdates s.calls := by
  rw [doDelete_calls, countUpdates_append]
  simp [countUpdates, isUpdateCall]

theorem waitLoopCond_countUpdates (crd : CRD) (st : CRD × St) :
    countUpdates ((waitLoopCond crd st).2).2.calls = countUpdates st.2.calls := by
  rcases st with ⟨cc, s⟩
  unfold waitLoopCond
  cases scanConditions cc.conditions with
  | established => rfl
  | namesRejected r => rfl
  | noMatch =>
    rcases hg : doGet crd.name s with ⟨r, s1⟩
    have h1 : countUpdates s1.calls = countUpdates s.calls := by
      have h0 := countUpdates_doGet crd.name s
      rw [hg] at h0
      exact h0
    cases r <;> exact h1

theorem establishPhase_countUpdates (n : String) (crd cc : CRD) (s : St) :
    countUpdates (establishPhase n crd cc s).2.calls = countUpdates s.calls := by
  unfold establishPhase
  have hp : countUpdates ((poll (waitLoopCond crd) pollAttempts (cc, s)).2).2.calls
      = countUpdates s.calls :=
    poll_preserve (waitLoopCond crd) (fun p => countUpdates p.2.calls)
      (waitLoopCond_countUpdates crd) pollAttempts (cc, s)
  rcases hr : poll (waitLoopCond crd) pollAttempts (cc, s) with ⟨e, cc2, s2⟩
  rw [hr] at hp
  cases e with
  | none => exact hp
  | some werr =>
    dsimp only
    rcases hd : doDelete crd.name s2 with ⟨d, s3⟩
    have h3 : countUpdates s3.calls = countUpdates s2.calls := by
      have h0 := countUpdates_doDelete crd.name s2
      rw [hd] at h0
      exact h0
    cases d with
    | none =>
      show countUpdates s3.calls = countUpdates s.calls
      rw [h3]
      exact hp
    | some derr =>
      show countUpdates s3.calls = countUpdates s.calls
      rw [h3]
      exact hp

/-- When the gate of the update-decision phase is false, the phase is a
no-op. -/
theorem updatePhase_skip (crd cc : CRD) (s : St)
    (h : (crd.spec.validation.isSome
        && (getLabelD cc.labels CustomResourceDefinitionSchemaVersionKey != "")
        && needsUpdate cc) = false) :
    updatePhase crd cc s = (none, (cc, s)) := by
  unfold updatePhase
  rw [if_neg (by simp [h])]

theorem afterFetch_countUpdates_noval (n : String) (crd cc : CRD) (s : St)
    (hval : crd.spec.validation = none) :
    countUpdates (afterFetch n crd cc s).2.calls = countUpdates s.calls := by
  have hup : updatePhase crd cc s = (none, (cc, s)) :=
    updatePhase_skip crd cc s (by simp [hval])
  unfold afterFetch
  rw [hup]
  exact establishPhase_countUpdates n crd cc s

theorem createUpdateCRD_countUpdates_noval (n : String) (crd : CRD) (s : St)
    (hval : crd.spec.validation = none) :
    countUpdates (createUpdateCRD n crd s).2.calls = countUpdates s.calls := by
  unfold createUpdateCRD
  rcases hg : doGet crd.name { s with kinds := s.kinds ++ [n] } with ⟨r, s1⟩
  have h1 : countUpdates s1.calls = countUpdates s.calls := by
    have h0 := countUpdates_doGet crd.name { s with kinds := s.kinds ++ [n] }
    rw [hg] at h0
    exact h0
  cases r with
  | ok c =>
    dsimp only
    rw [afterFetch_countUpdates_noval n crd c s1 hval, h1]
  | error e =>
    dsimp only
    cases he : isNotFound e with
    | false =>
      rw [if_neg (by simp [he])]
      exact h1
    | true =>
      rw [if_pos rfl]
      rcases hc : doCreate crd.name s1 with ⟨r2, s2⟩
      have h2 : countUpdates s2.calls = countUpdates s1.calls := by
        have h0 := countUpdates_doCreate crd.name s1
        rw [hc] at h0
        exact h0
      cases r2 with
      | ok c2 =>
        dsimp only
        rw [afterFetch_countUpdates_noval n crd c2 s2 hval, h2, h1]
      | error e2 =>
        dsimp only
        cases ha : isAlreadyExists e2 with
        | true =>
          rw [if_pos rfl]
          show countUpdates s2.calls = countUpdates s.calls
          rw [h2, h1]
        | false =>
          rw [if_neg (by simp [ha])]
          show countUpdates s2.calls = countUpdates s.calls
          rw [h2, h1]

/-! ## Claims -/

/-- C1: needsUpdate is true exactly when the live object has no
validation schema, or no schema-version label, or a label that fails to
parse, or a label version strictly below the compiled-in current schema
version "1.18"; it is false when validation is present and the label
parses to a version equal to or greater than the current one.  The first
conjunct pins the compiled-in constant to "1.18". -/
theorem needsUpdate_version_policy :
    (CustomResourceDefinitionSchemaVersion = "1.18" ∧
     parseVersion CustomResourceDefinitionSchemaVersion = some comparableCRDSchemaVersion) ∧
    ∀ live : CRD,
      (needsUpdate live = true ↔
        (live.spec.validation = none ∨
         getLabel live.labels CustomResourceDefinitionSchemaVersionKey = none ∨
         (∃ v, getLabel live.labels CustomResourceDefinitionSchemaVersionKey = some v ∧
               parseVersion v = none) ∨
         (∃ v ver,
            getLabel live.labels CustomResourceDefinitionSchemaVersionKey = some v ∧
            parseVersion v = some ver ∧
            SemVer.lt ver comparableCRDSchemaVersion = true))) := by
  constructor
  · exact ⟨rfl, by decide⟩
  · intro live
    unfold needsUpdate
    rcases hv : live.spec.validation with _ | u
    · simp [hv]
    · rcases hl : getLabel live.labels CustomResourceDefinitionSchemaVersionKey with _ | v
      · simp [hl]
      · rcases hp : parseVersion v with _ | ver
        · simp [hp]
        · simp [hp]

/-- C2: when the initial Get reports not-found and the subsequent Create
reports already-exists, createUpdateCRD returns a nil error immediately:
the only calls issued in that pass are the one Get and the one Create —
in particular no Update and no further work. -/
theorem createRace_returns_nil (n : String) (crd : CRD) (s : St)
    (eg ec : K8sError)
    (gs cs : List (Except K8sError CRD))
    (hg : s.script.gets = Except.error eg :: gs)
    (hc : s.script.creates = Except.error ec :: cs)
    (hnf : isNotFound eg = true)
    (hae : isAlreadyExists ec = true) :
    (createUpdateCRD n crd s).1 = none ∧
    (createUpdateCRD n crd s).2.calls =
      s.calls ++ [APICall.get crd.name, APICall.create crd.name] := by
  refine ⟨?_, ?_⟩ <;>
    simp [createUpdateCRD, doGet, doCreate, hg, hc, hnf, hae]

/-- A sample descriptor spec used by concrete witness runs. -/
def sampleSpec : CRDSpec :=
  { group := CustomResourceDefinitionGroup,
    version := CustomResourceDefinitionVersion,
    names := { plural := "ciliumnetworkpolicies", singular := "ciliumnetworkpolicy",
               shortNames := ["cnp"], kind := "CiliumNetworkPolicy" },
    additionalPrinterColumns := none,
    subresources := none,
    scope := "Namespaced",
    validation := some () }

/-- A sample descriptor used by concrete witness runs. -/
def sampleCrd : CRD :=
  { name := "ciliumnetworkpolicies.cilium.io",
    labels := [(CustomResourceDefinitionSchemaVersionKey,
                CustomResourceDefinitionSchemaVersion)],
    spec := sampleSpec,
    conditions := [] }

/-- Script for the C2 witness: Get answers not-found, Create answers
already-exists. -/
def raceSt : St :=
  { script := { gets := [Except.error K8sError.notFound],
                creates := [Except.error K8sError.alreadyExists],
                updates := [], deletes := [] },
    calls := [], kinds := [] }

/-- Witness for C2 at a concrete input. -/
theorem createRace_returns_nil_witness :
    (createUpdateCRD "CiliumNetworkPolicy/v2" sampleCrd raceSt).1 = none ∧
    (createUpdateCRD "CiliumNetworkPolicy/v2" sampleCrd raceSt).2.calls =
      raceSt.calls ++ [APICall.get sampleCrd.name, APICall.create sampleCrd.name] :=
  createRace_returns_nil "CiliumNetworkPolicy/v2" sampleCrd raceSt
    K8sError.notFound K8sError.alreadyExists [] [] rfl rfl rfl rfl

/-- C6: the update-decision phase runs only when the new descriptor has a
validation schema and the live object carries a non-empty schema-version
label.  If either fails, the phase is skipped entirely (no state change,
no calls) and control passes directly to the establishment wait; and
whenever the phase does anything at all, the descriptor had validation,
the label was non-empty and needsUpdate held. -/
theorem updatePhase_gate (n : String) (crd cc : CRD) (s : St) :
    ((crd.spec.validation = none ∨
      getLabelD cc.labels CustomResourceDefinitionSchemaVersionKey = "") →
      updatePhase crd cc s = (none, (cc, s)) ∧
      afterFetch n crd cc s = establishPhase n crd cc s) ∧
    (((updatePhase crd cc s).2).2.calls ≠ s.calls →
      crd.spec.validation.isSome = true ∧
      getLabelD cc.labels CustomResourceDefinitionSchemaVersionKey ≠ "" ∧
      needsUpdate cc = true) := by
  constructor
  · intro h
    have hgate : (crd.spec.validation.isSome
        && (getLabelD cc.labels CustomResourceDefinitionSchemaVersionKey != "")
        && needsUpdate cc) = false := by
      rcases h with h | h
      · simp [h]
      · simp [h]
    have hup := updatePhase_skip crd cc s hgate
    refine ⟨hup, ?_⟩
    unfold afterFetch
    rw [hup]
  · intro h
    cases hgate : (crd.spec.validation.isSome
        && (getLabelD cc.labels CustomResourceDefinitionSchemaVersionKey != "")
        && needsUpdate cc) with
    | false => exact absurd (by rw [updatePhase_skip crd cc s hgate]) h
    | true =>
      have h0 := hgate
      simp only [Bool.and_eq_true, bne_iff_ne] at h0
      exact ⟨h0.1.1, h0.1.2, h0.2⟩

/-- A descriptor without a validation schema. -/
def novalCrd : CRD := { sampleCrd with spec := { sampleSpec with validation := none } }

/-- A stale live object: validation present, schema-version label "1.17". -/
def staleLive : CRD :=
  { name := "ciliumnetworkpolicies.cilium.io",
    labels := [(CustomResourceDefinitionSchemaVersionKey, "1.17")],
    spec := sampleSpec,
    conditions := [] }

/-- Script whose Get answers the stale live object once. -/
def staleSt : St :=
  { script := { gets := [Except.ok staleLive], creates := [], updates := [], deletes := [] },
    calls := [], kinds := [] }

/-- Witness for C6 at concrete inputs: a descriptor without validation
skips the phase, and a pass that issued calls had validation, a non-empty
label and staleness. -/
theorem updatePhase_gate_witness :
    (updatePhase novalCrd sampleCrd raceSt = (none, (sampleCrd, raceSt)) ∧
     afterFetch "w" novalCrd sampleCrd raceSt = establishPhase "w" novalCrd sampleCrd raceSt) ∧
    (sampleCrd.spec.validation.isSome = true ∧
     getLabelD staleLive.labels CustomResourceDefinitionSchemaVersionKey ≠ "" ∧
     needsUpdate staleLive = true) :=
  ⟨(updatePhase_gate "w" novalCrd sampleCrd raceSt).1 (Or.inl rfl),
   (updatePhase_gate "w" sampleCrd staleLive staleSt).2 (by decide)⟩

/-- C9: the identity-kind descriptor carries no validation schema, so a
createIdentityCRD pass never issues an Update call, whatever the script
answers (any live labels, any staleness). -/
theorem identity_kind_never_updates :
    (∀ doc : CRD, (identityRes doc).spec.validation = none) ∧
    (∀ (doc : CRD) (s : St),
      countUpdates (createIdentityCRD doc s).2.calls = countUpdates s.calls) := by
  constructor
  · intro doc
    rfl
  · intro doc s
    exact createUpdateCRD_countUpdates_noval "v2.CiliumIdentity" (identityRes doc) s rfl

/-- C8: when the scan of the live conditions hits a NamesAccepted=false
entry, the wait iteration neither errors nor finishes: it returns
(false, nil), and since that branch does not re-fetch, the whole poll
keeps spinning without issuing calls until the deadline and ends in the
timeout error — never in an early error. -/
theorem namesRejected_never_aborts (crd cc : CRD) (s : St) (r : String)
    (h : scanConditions cc.conditions = ScanResult.namesRejected r) :
    waitLoopCond crd (cc, s) = ((false, none), (cc, s)) ∧
    ∀ fuel : Nat,
      poll (waitLoopCond crd) fuel (cc, s) = (some K8sError.waitTimeout, (cc, s)) := by
  have hcond : waitLoopCond crd (cc, s) = ((false, none), (cc, s)) := by
    unfold waitLoopCond
    dsimp only
    rw [h]
  refine ⟨hcond, ?_⟩
  intro fuel
  induction fuel with
  | zero => rfl
  | succ m ih => rw [poll_of_cont hcond m]; exact ih

/-- A live object whose conditions report NamesAccepted=false before
Established=true. -/
def rejLive : CRD :=
  { sampleCrd with
    conditions := [{ condType := NamesAccepted, status := ConditionFalse,
                     reason := "name conflict" },
                   { condType := Established, status := ConditionTrue, reason := "" }] }

/-- Witness for C8 at a concrete input. -/
theorem namesRejected_never_aborts_witness :
    waitLoopCond sampleCrd (rejLive, raceSt) = ((false, none), (rejLive, raceSt)) ∧
    poll (waitLoopCond sampleCrd) pollAttempts (rejLive, raceSt) =
      (some K8sError.waitTimeout, (rejLive, raceSt)) :=
  ⟨(namesRejected_never_aborts sampleCrd rejLive raceSt "name conflict" rfl).1,
   (namesRejected_never_aborts sampleCrd rejLive raceSt "name conflict" rfl).2 pollAttempts⟩

/-- Whether a condition entry decides a wait-loop scan. -/
def decisive (c : CRDCondition) : Bool :=
  decide ((c.condType = Established ∧ c.status = ConditionTrue) ∨
          (c.condType = NamesAccepted ∧ c.status = ConditionFalse))

/-- A non-decisive entry is skipped by the scan. -/
theorem scan_skip (c : CRDCondition) (rest : List CRDCondition)
    (h : decisive c = false) :
    scanConditions (c :: rest) = scanConditions rest := by
  have h0 : ¬((c.condType = Established ∧ c.status = ConditionTrue) ∨
      (c.condType = NamesAccepted ∧ c.status = ConditionFalse)) := by
    simpa [decisive] using h
  conv_lhs => unfold scanConditions
  by_cases h1 : c.condType = Established
  · rw [if_pos h1, if_neg (fun h2 => h0 (Or.inl ⟨h1, h2⟩))]
  · rw [if_neg h1]
    by_cases h3 : c.condType = NamesAccepted
    · rw [if_pos h3, if_neg (fun h4 => h0 (Or.inr ⟨h3, h4⟩))]
    · rw [if_neg h3]

/-- C10: the scan acts on the first decisive entry in list order — an
Established=true entry ahead of everything decisive yields success
whatever follows it, a NamesAccepted=false entry ahead of everything
decisive yields the name-conflict outcome whatever follows it (even a
later Established=true); and the wait iteration re-fetches the live
object (one Get) only when no decisive entry exists, leaving the state
untouched in the two decisive outcomes. -/
theorem establishment_scan_order :
    (∀ (l1 : List CRDCondition) (c : CRDCondition) (l2 : List CRDCondition),
      (∀ c0 ∈ l1, decisive c0 = false) →
      c.condType = Established → c.status = ConditionTrue →
      scanConditions (l1 ++ c :: l2) = ScanResult.established) ∧
    (∀ (l1 : List CRDCondition) (c : CRDCondition) (l2 : List CRDCondition),
      (∀ c0 ∈ l1, decisive c0 = false) →
      c.condType = NamesAccepted → c.status = ConditionFalse →
      scanConditions (l1 ++ c :: l2) = ScanResult.namesRejected c.reason) ∧
    (∀ (crd cc : CRD) (s : St),
      (scanConditions cc.conditions = ScanResult.established →
        waitLoopCond crd (cc, s) = ((true, none), (cc, s))) ∧
      (∀ r, scanConditions cc.conditions = ScanResult.namesRejected r →
        waitLoopCond crd (cc, s) = ((false, none), (cc, s))) ∧
      (scanConditions cc.conditions = ScanResult.noMatch →
        ((waitLoopCond crd (cc, s)).2).2.calls = s.calls ++ [APICall.get crd.name])) := by
  refine ⟨?_, ?_, ?_⟩
  · intro l1 c l2 hnd ht hs
    induction l1 with
    | nil =>
      show scanConditions (c :: l2) = ScanResult.established
      unfold scanConditions
      rw [if_pos ht, if_pos hs]
    | cons c0 rest ih =>
      rw [List.cons_append, scan_skip c0 (rest ++ c :: l2) (hnd c0 (by simp))]
      exact ih (fun x hx => hnd x (by simp [hx]))
  · intro l1 c l2 hnd ht hs
    induction l1 with
    | nil =>
      show scanConditions (c :: l2) = ScanResult.namesRejected c.reason
      have hne : ¬ c.condType = Established := by
        rw [ht]
        intro h0
        exact absurd h0 (by decide)
      unfold scanConditions
      rw [if_neg hne, if_pos ht, if_pos hs]
    | cons c0 rest ih =>
      rw [List.cons_append, scan_skip c0 (rest ++ c :: l2) (hnd c0 (by simp))]
      exact ih (fun x hx => hnd x (by simp [hx]))
  · intro crd cc s
    refine ⟨?_, ?_, ?_⟩
    · intro h
      unfold waitLoopCond
      dsimp only
      rw [h]
    · intro r h
      unfold waitLoopCond
      dsimp only
      rw [h]
    · intro h
      unfold waitLoopCond
      dsimp only
      rw [h]
      dsimp only
      rcases hg : doGet crd.name s with ⟨g, s1⟩
      have hcalls : s1.calls = s.calls ++ [APICall.get crd.name] := by
        have h0 := doGet_calls crd.name s
        rw [hg] at h0
        exact h0
      cases g <;> exact hcalls

/-- A condition entry the scan skips (Established with status False). -/
def skipCond : CRDCondition := { condType := Established, status := "False", reason := "" }

/-- An Established=true condition entry. -/
def estCond : CRDCondition := { condType := Established, status := ConditionTrue, reason := "" }

/-- A NamesAccepted=false condition entry. -/
def rejCond : CRDCondition :=
  { condType := NamesAccepted, status := ConditionFalse, reason := "name conflict" }

/-- Witness for C10 at concrete inputs: the earlier decisive entry wins
in both orders, and a scan without decisive entries issues one Get. -/
theorem establishment_scan_order_witness :
    scanConditions ([skipCond] ++ estCond :: [rejCond]) = ScanResult.established ∧
    scanConditions ([skipCond] ++ rejCond :: [estCond]) =
      ScanResult.namesRejected rejCond.reason ∧
    ((waitLoopCond sampleCrd (sampleCrd, raceSt)).2).2.calls =
      raceSt.calls ++ [APICall.get sampleCrd.name] :=
  ⟨establishment_scan_order.1 [skipCond] estCond [rejCond] (by decide) rfl rfl,
   establishment_scan_order.2.1 [skipCond] rejCond [estCond] (by decide) rfl rfl,
   (establishment_scan_order.2.2 sampleCrd sampleCrd raceSt).2.2 rfl⟩

/-- C4: whenever the establishment wait ends with an error, the phase
issues exactly one compensating Delete for the object name and returns a
non-nil error: the original wait error when the Delete succeeds (or is
beyond the script), and a single combined error whose text contains both
the delete error text and the wait error text when the Delete fails. -/
theorem establish_failure_compensates (n : String) (crd cc : CRD) (s : St)
    (werr : K8sError) (cc2 : CRD) (s2 : St)
    (h : poll (waitLoopCond crd) pollAttempts (cc, s) = (some werr, (cc2, s2))) :
    (establishPhase n crd cc s).2.calls = s2.calls ++ [APICall.delete crd.name] ∧
    (establishPhase n crd cc s).1 ≠ none ∧
    (s2.script.deletes = [] → (establishPhase n crd cc s).1 = some werr) ∧
    (∀ ds, s2.script.deletes = none :: ds → (establishPhase n crd cc s).1 = some werr) ∧
    (∀ derr ds, s2.script.deletes = some derr :: ds →
      ∃ x y, (establishPhase n crd cc s).1 =
        some (K8sError.other (x ++ errorText derr ++ y ++ errorText werr))) := by
  unfold establishPhase
  rw [h]
  dsimp only
  unfold doDelete
  rcases hds : s2.script.deletes with _ | ⟨d, ds⟩
  · refine ⟨rfl, by simp, fun _ => rfl, ?_, ?_⟩
    · intro ds hcontra
      cases hcontra
    · intro derr ds hcontra
      cases hcontra
  · cases d with
    | none =>
      refine ⟨rfl, by simp, ?_, fun _ _ => rfl, ?_⟩
      · intro hcontra
        cases hcontra
      · intro derr ds2 hcontra
        cases hcontra
    | some derr =>
      refine ⟨rfl, by simp, ?_, ?_, ?_⟩
      · intro hcontra
        cases hcontra
      · intro ds2 hcontra
        cases hcontra
      · intro derr2 ds2 heq
        cases heq
        exact ⟨"unable to delete k8s " ++ n ++ " CRD ", ". Deleting CRD due: ", rfl⟩

/-- Script for the C4 witness: no Get answers (the wait fetch fails), and
the Delete answers a conflict error. -/
def waitFailStPre : St :=
  { script := { gets := [], creates := [], updates := [],
                deletes := [some K8sError.conflict] },
    calls := [], kinds := [] }

/-- The state after the failing wait poll of the C4 witness. -/
def waitFailSt2 : St :=
  { script := { gets := [], creates := [], updates := [],
                deletes := [some K8sError.conflict] },
    calls := [APICall.get "ciliumnetworkpolicies.cilium.io"], kinds := [] }

/-- Witness for C4 at a concrete input. -/
theorem establish_failure_compensates_witness :
    (establishPhase "w" sampleCrd sampleCrd waitFailStPre).2.calls =
      waitFailSt2.calls ++ [APICall.delete sampleCrd.name] ∧
    (establishPhase "w" sampleCrd sampleCrd waitFailStPre).1 ≠ none ∧
    (∃ x y, (establishPhase "w" sampleCrd sampleCrd waitFailStPre).1 =
      some (K8sError.other (x ++ errorText K8sError.conflict ++ y ++
        errorText (K8sError.other "unscripted")))) :=
  have h0 := establish_failure_compensates "w" sampleCrd sampleCrd waitFailStPre
    (K8sError.other "unscripted") sampleCrd waitFailSt2 rfl
  ⟨h0.1, h0.2.1, h0.2.2.2.2 K8sError.conflict [] rfl⟩

/-- A pass against an up-to-date, established live object reduces to the
single initial Get: nil error and one Get appended to the logs. -/
theorem createUpdateCRD_uptodate (n : String) (crd live : CRD) (s : St)
    (gs : List (Except K8sError CRD))
    (hg : s.script.gets = Except.ok live :: gs)
    (hnu : needsUpdate live = false)
    (hscan : scanConditions live.conditions = ScanResult.established) :
    createUpdateCRD n crd s =
      (none, { s with script := { s.script with gets := gs },
                      calls := s.calls ++ [APICall.get crd.name],
                      kinds := s.kinds ++ [n] }) := by
  have hcond : ∀ s0 : St, waitLoopCond crd (live, s0) = ((true, none), (live, s0)) := by
    intro s0
    unfold waitLoopCond
    dsimp only
    rw [hscan]
  have hgate : (crd.spec.validation.isSome
      && (getLabelD live.labels CustomResourceDefinitionSchemaVersionKey != "")
      && needsUpdate live) = false := by
    simp [hnu]
  unfold createUpdateCRD doGet
  dsimp only
  rw [hg]
  dsimp only
  unfold afterFetch
  rw [updatePhase_skip crd live _ hgate]
  dsimp only
  unfold establishPhase
  rw [poll_of_done (hcond _) (by decide)]

/-- C7: two consecutive createUpdateCRD passes against a live object that
is already up to date (needsUpdate false) and established issue no Update
call at all — the combined log grows by exactly the two initial Gets —
and both passes return a nil error. -/
theorem ensure_idempotent (n : String) (crd live : CRD) (s : St)
    (gs : List (Except K8sError CRD))
    (hg : s.script.gets = Except.ok live :: Except.ok live :: gs)
    (hnu : needsUpdate live = false)
    (hscan : scanConditions live.conditions = ScanResult.established) :
    (createUpdateCRD n crd s).1 = none ∧
    (createUpdateCRD n crd (createUpdateCRD n crd s).2).1 = none ∧
    (createUpdateCRD n crd (createUpdateCRD n crd s).2).2.calls =
      s.calls ++ [APICall.get crd.name, APICall.get crd.name] := by
  have h1 := createUpdateCRD_uptodate n crd live s (Except.ok live :: gs) hg hnu hscan
  rw [h1]
  have h2 := createUpdateCRD_uptodate n crd live
    { s with script := { s.script with gets := Except.ok live :: gs },
             calls := s.calls ++ [APICall.get crd.name],
             kinds := s.kinds ++ [n] } gs rfl hnu hscan
  dsimp only
  rw [h2]
  refine ⟨rfl, rfl, ?_⟩
  dsimp only
  rw [List.append_assoc]
  rfl

/-- A live object that is up to date (validation present, label "1.18")
and established. -/
def estLive : CRD :=
  { sampleCrd with conditions := [estCond] }

/-- Script answering the same up-to-date live object to both passes. -/
def idemSt : St :=
  { script := { gets := [Except.ok estLive, Except.ok estLive],
                creates := [], updates := [], deletes := [] },
    calls := [], kinds := [] }

/-- Witness for C7 at a concrete input. -/
theorem ensure_idempotent_witness :
    (createUpdateCRD "CiliumNetworkPolicy/v2" sampleCrd idemSt).1 = none ∧
    (createUpdateCRD "CiliumNetworkPolicy/v2" sampleCrd
        (createUpdateCRD "CiliumNetworkPolicy/v2" sampleCrd idemSt).2).1 = none ∧
    (createUpdateCRD "CiliumNetworkPolicy/v2" sampleCrd
        (createUpdateCRD "CiliumNetworkPolicy/v2" sampleCrd idemSt).2).2.calls =
      idemSt.calls ++ [APICall.get sampleCrd.name, APICall.get sampleCrd.name] :=
  ensure_idempotent "CiliumNetworkPolicy/v2" sampleCrd estLive idemSt []
    rfl (by decide) rfl

/-- Script for the C3 counterexample: both Gets answer the stale live
object, the single Update answers a conflict error. -/
def conflictSt : St :=
  { script := { gets := [Except.ok staleLive, Except.ok staleLive],
                creates := [], updates := [some K8sError.conflict], deletes := [] },
    calls := [], kinds := [] }

/-- C3 counterexample: an Update conflict inside the bounded retry loop
is NOT absorbed and retried — the very first failed Update (three calls
into the pass, nowhere near the 120-tick deadline) ends createUpdateCRD
with the conflict error itself, not with the deadline timeout error. -/
theorem update_conflict_not_retried_cex :
    (createUpdateCRD "CiliumNetworkPolicy/v2" sampleCrd conflictSt).1 =
      some K8sError.conflict ∧
    (createUpdateCRD "CiliumNetworkPolicy/v2" sampleCrd conflictSt).2.calls =
      [APICall.get sampleCrd.name, APICall.get sampleCrd.name,
       APICall.update sampleCrd.name] := by
  constructor <;> rfl

/-- C3 amended: in the bounded update-retry loop, the first Update that
fails — with a conflict or any other error — aborts the poll at once and
its error is surfaced to the caller; there is no internal retry.  The
pass consists of exactly the initial Get, one loop Get and the one failed
Update. -/
theorem update_failure_surfaces (n : String) (crd live0 live : CRD) (s : St)
    (e : K8sError) (gs : List (Except K8sError CRD)) (us : List (Option K8sError))
    (hg : s.script.gets = Except.ok live0 :: Except.ok live :: gs)
    (hu : s.script.updates = some e :: us)
    (hval : crd.spec.validation.isSome = true)
    (hlab : (getLabelD live0.labels CustomResourceDefinitionSchemaVersionKey != "") = true)
    (hnu0 : needsUpdate live0 = true)
    (hnu : needsUpdate live = true) :
    (createUpdateCRD n crd s).1 = some e ∧
    (createUpdateCRD n crd s).2.calls =
      s.calls ++ [APICall.get crd.name, APICall.get crd.name,
                  APICall.update crd.name] := by
  have hcond : ∀ s0 : St, s0.script.gets = Except.ok live :: gs →
      s0.script.updates = some e :: us →
      updateLoopCond crd (live0, s0) = ((false, some e),
        ({ live with labels := crd.labels, spec := crd.spec },
         { s0 with script := { s0.script with gets := gs, updates := us },
                   calls := s0.calls ++ [APICall.get crd.name, APICall.update crd.name] })) := by
    intro s0 h1 h2
    unfold updateLoopCond doGet
    dsimp only
    rw [h1]
    dsimp only
    rw [if_pos hnu]
    unfold doUpdate
    dsimp only
    rw [h2]
    dsimp only
    simp [List.append_assoc]
  have hgate : (crd.spec.validation.isSome
      && (getLabelD live0.labels CustomResourceDefinitionSchemaVersionKey != "")
      && needsUpdate live0) = true := by
    simp [hval, hlab, hnu0]
  unfold createUpdateCRD doGet
  dsimp only
  rw [hg]
  dsimp only
  unfold afterFetch updatePhase
  rw [if_pos hgate]
  rw [poll_of_err (hcond
    { s with script := { s.script with gets := Except.ok live :: gs },
             calls := s.calls ++ [APICall.get crd.name],
             kinds := s.kinds ++ [n] } rfl hu) (by decide)]
  dsimp only
  refine ⟨rfl, ?_⟩
  dsimp only
  simp [List.append_assoc]

/-- Witness for the amended C3 at a concrete input. -/
theorem update_failure_surfaces_witness :
    (createUpdateCRD "CiliumNetworkPolicy/v2" sampleCrd conflictSt).1 =
      some K8sError.conflict ∧
    (createUpdateCRD "CiliumNetworkPolicy/v2" sampleCrd conflictSt).2.calls =
      conflictSt.calls ++ [APICall.get sampleCrd.name, APICall.get sampleCrd.name,
                           APICall.update sampleCrd.name] :=
  update_failure_surfaces "CiliumNetworkPolicy/v2" sampleCrd staleLive staleLive
    conflictSt K8sError.conflict [] [] rfl rfl rfl (by decide) (by decide) (by decide)

/-- C5: the orchestrator runs exactly the per-kind passes of
orderedRunners in that fixed order (network policy, cluster-wide network
policy, endpoint, node, and the identity kind exactly when the mode flag
selects CRD identity allocation), short-circuiting: runSeq returns the
first non-nil error with the state of the failing pass — nothing after it
runs — and the per-kind invocation log of a full run is a prefix of the
ordered kind names that is complete exactly on full success. -/
theorem orchestration_order :
    (∀ (mode : String) (docs : EmbeddedCRDs) (s : St),
      CreateCustomResourceDefinitions mode docs s = runSeq (orderedRunners mode docs) s) ∧
    (∀ (f : St → Option K8sError × St) (fs : List (St → Option K8sError × St))
       (s : St) (e : K8sError) (s1 : St),
      f s = (some e, s1) → runSeq (f :: fs) s = (some e, s1)) ∧
    (∀ (f : St → Option K8sError × St) (fs : List (St → Option K8sError × St))
       (s s1 : St),
      f s = (none, s1) → runSeq (f :: fs) s = runSeq fs s1) ∧
    (∀ (mode : String) (docs : EmbeddedCRDs) (s : St),
      ∃ k, k ≤ (orderedNames mode).length ∧
        (CreateCustomResourceDefinitions mode docs s).2.kinds =
          s.kinds ++ (orderedNames mode).take k ∧
        ((CreateCustomResourceDefinitions mode docs s).1 = none →
          k = (orderedNames mode).length)) := by
  have hstep_err : ∀ (f : St → Option K8sError × St)
      (fs : List (St → Option K8sError × St)) (s : St) (e : K8sError) (s1 : St),
      f s = (some e, s1) → runSeq (f :: fs) s = (some e, s1) := by
    intro f fs s e s1 h
    conv_lhs => unfold runSeq
    rw [h]
  have hstep_ok : ∀ (f : St → Option K8sError × St)
      (fs : List (St → Option K8sError × St)) (s s1 : St),
      f s = (none, s1) → runSeq (f :: fs) s = runSeq fs s1 := by
    intro f fs s s1 h
    conv_lhs => unfold runSeq
    rw [h]
  refine ⟨?_, hstep_err, hstep_ok, ?_⟩
  · intro mode docs s
    unfold CreateCustomResourceDefinitions orderedRunners
    simp only [List.cons_append, List.nil_append]
    rcases h1 : createCNPCRD docs.cnp s with ⟨e1, s1⟩
    cases e1 with
    | some e =>
      rw [hstep_err _ _ _ _ _ h1]
    | none =>
      dsimp only
      rw [hstep_ok _ _ _ _ h1]
      rcases h2 : createCCNPCRD docs.ccnp s1 with ⟨e2, s2⟩
      cases e2 with
      | some e => rw [hstep_err _ _ _ _ _ h2]
      | none =>
        dsimp only
        rw [hstep_ok _ _ _ _ h2]
        rcases h3 : createCEPCRD docs.cep s2 with ⟨e3, s3⟩
        cases e3 with
        | some e => rw [hstep_err _ _ _ _ _ h3]
        | none =>
          dsimp only
          rw [hstep_ok _ _ _ _ h3]
          rcases h4 : createNodeCRD docs.node s3 with ⟨e4, s4⟩
          cases e4 with
          | some e => rw [hstep_err _ _ _ _ _ h4]
          | none =>
            dsimp only
            rw [hstep_ok _ _ _ _ h4]
            by_cases hm : mode = IdentityAllocationModeCRD
            · rw [if_pos hm, if_pos hm]
              rcases h5 : createIdentityCRD docs.identity s4 with ⟨e5, s5⟩
              cases e5 with
              | some e => rw [hstep_err _ _ _ _ _ h5]
              | none =>
                dsimp only
                rw [hstep_ok _ _ _ _ h5]
                rfl
            · rw [if_neg hm, if_neg hm]
              rfl
  · intro mode docs s
    have hlenEq : (orderedNames mode).length
        = if mode = IdentityAllocationModeCRD then 5 else 4 := by
      unfold orderedNames
      by_cases hm : mode = IdentityAllocationModeCRD
      · rw [if_pos hm, if_pos hm]
        rfl
      · rw [if_neg hm, if_neg hm]
        rfl
    have ht1 : (orderedNames mode).take 1 = ["CiliumNetworkPolicy/v2"] := rfl
    have ht2 : (orderedNames mode).take 2
        = ["CiliumNetworkPolicy/v2", "CiliumClusterwideNetworkPolicy/v2"] := rfl
    have ht3 : (orderedNames mode).take 3
        = ["CiliumNetworkPolicy/v2", "CiliumClusterwideNetworkPolicy/v2",
           "v2.CiliumEndpoint"] := rfl
    have ht4 : (orderedNames mode).take 4
        = ["CiliumNetworkPolicy/v2", "CiliumClusterwideNetworkPolicy/v2",
           "v2.CiliumEndpoint", "v2.CiliumNode"] := rfl
    unfold CreateCustomResourceDefinitions
    rcases h1 : createCNPCRD docs.cnp s with ⟨e1, s1⟩
    have hk1 : s1.kinds = s.kinds ++ ["CiliumNetworkPolicy/v2"] := by
      have h0 : (createCNPCRD docs.cnp s).2.kinds
          = s.kinds ++ ["CiliumNetworkPolicy/v2"] :=
        createUpdateCRD_kinds "CiliumNetworkPolicy/v2" (cnpRes docs.cnp) s
      rw [h1] at h0
      exact h0
    cases e1 with
    | some e =>
      dsimp only
      refine ⟨1, ?_, ?_, ?_⟩
      · rw [hlenEq]
        split <;> omega
      · rw [ht1]
        exact hk1
      · intro h
        exact absurd h (by simp)
    | none =>
      dsimp only
      rcases h2 : createCCNPCRD docs.ccnp s1 with ⟨e2, s2⟩
      have hk2 : s2.kinds = s.kinds
          ++ ["CiliumNetworkPolicy/v2", "CiliumClusterwideNetworkPolicy/v2"] := by
        have h0 : (createCCNPCRD docs.ccnp s1).2.kinds
            = s1.kinds ++ ["CiliumClusterwideNetworkPolicy/v2"] :=
          createUpdateCRD_kinds "CiliumClusterwideNetworkPolicy/v2" (ccnpRes docs.ccnp) s1
        rw [h2] at h0
        rw [h0, hk1, List.append_assoc]
        rfl
      cases e2 with
      | some e =>
        dsimp only
        refine ⟨2, ?_, ?_, ?_⟩
        · rw [hlenEq]
          split <;> omega
        · rw [ht2]
          exact hk2
        · intro h
          exact absurd h (by simp)
      | none =>
        dsimp only
        rcases h3 : createCEPCRD docs.cep s2 with ⟨e3, s3⟩
        have hk3 : s3.kinds = s.kinds
            ++ ["CiliumNetworkPolicy/v2", "CiliumClusterwideNetworkPolicy/v2",
                "v2.CiliumEndpoint"] := by
          have h0 : (createCEPCRD docs.cep s2).2.kinds
              = s2.kinds ++ ["v2.CiliumEndpoint"] :=
            createUpdateCRD_kinds "v2.CiliumEndpoint" (cepRes docs.cep) s2
          rw [h3] at h0
          rw [h0, hk2, List.append_assoc]
          rfl
        cases e3 with
        | some e =>
          dsimp only
          refine ⟨3, ?_, ?_, ?_⟩
          · rw [hlenEq]
            split <;> omega
          · rw [ht3]
            exact hk3
          · intro h
            exact absurd h (by simp)
        | none =>
          dsimp only
          rcases h4 : createNodeCRD docs.node s3 with ⟨e4, s4⟩
          have hk4 : s4.kinds = s.kinds
              ++ ["CiliumNetworkPolicy/v2", "CiliumClusterwideNetworkPolicy/v2",
                  "v2.CiliumEndpoint", "v2.CiliumNode"] := by
            have h0 : (createNodeCRD docs.node s3).2.kinds
                = s3.kinds ++ ["v2.CiliumNode"] :=
              createUpdateCRD_kinds "v2.CiliumNode" (nodeRes docs.node) s3
            rw [h4] at h0
            rw [h0, hk3, List.append_assoc]
            rfl
          cases e4 with
          | some e =>
            dsimp only
            refine ⟨4, ?_, ?_, ?_⟩
            · rw [hlenEq]
              split <;> omega
            · rw [ht4]
              exact hk4
            · intro h
              exact absurd h (by simp)
          | none =>
            dsimp only
            by_cases hm : mode = IdentityAllocationModeCRD
            · rw [if_pos hm]
              have hL : orderedNames mode
                  = ["CiliumNetworkPolicy/v2", "CiliumClusterwideNetworkPolicy/v2",
                     "v2.CiliumEndpoint", "v2.CiliumNode", "v2.CiliumIdentity"] := by
                unfold orderedNames
                rw [if_pos hm]
                rfl
              rcases h5 : createIdentityCRD docs.identity s4 with ⟨e5, s5⟩
              have hk5 : s5.kinds = s.kinds
                  ++ ["CiliumNetworkPolicy/v2", "CiliumClusterwideNetworkPolicy/v2",
                      "v2.CiliumEndpoint", "v2.CiliumNode", "v2.CiliumIdentity"] := by
                have h0 : (createIdentityCRD docs.identity s4).2.kinds
                    = s4.kinds ++ ["v2.CiliumIdentity"] :=
                  createUpdateCRD_kinds "v2.CiliumIdentity" (identityRes docs.identity) s4
                rw [h5] at h0
                rw [h0, hk4, List.append_assoc]
                rfl
              cases e5 with
              | some e =>
                dsimp only
                refine ⟨5, ?_, ?_, ?_⟩
                · rw [hlenEq, if_pos hm]
                · rw [hL]
                  exact hk5
                · intro h
                  exact absurd h (by simp)
              | none =>
                dsimp only
                refine ⟨5, ?_, ?_, ?_⟩
                · rw [hlenEq, if_pos hm]
                · rw [hL]
                  exact hk5
                · intro h
                  rw [hlenEq, if_pos hm]
            · rw [if_neg hm]
              have hL : orderedNames mode
                  = ["CiliumNetworkPolicy/v2", "CiliumClusterwideNetworkPolicy/v2",
                     "v2.CiliumEndpoint", "v2.CiliumNode"] := by
                unfold orderedNames
                rw [if_neg hm]
                rfl
              refine ⟨4, ?_, ?_, ?_⟩
              · rw [hlenEq, if_neg hm]
              · rw [hL]
                exact hk4
              · intro h
                rw [hlenEq, if_neg hm]

/-- Witness for C5 at concrete inputs: a failing first pass short-circuits
runSeq with its error and state; a succeeding first pass hands its state
to the rest. -/
theorem orchestration_order_witness :
    runSeq [fun s0 => ((some (K8sError.other "boom") : Option K8sError), s0)] raceSt
      = (some (K8sError.other "boom"), raceSt) ∧
    runSeq [fun s0 => ((none : Option K8sError), s0)] raceSt = runSeq [] raceSt :=
  ⟨orchestration_order.2.1 _ [] raceSt (K8sError.other "boom") raceSt rfl,
   orchestration_order.2.2.1 _ [] raceSt raceSt rfl⟩
